import Mathlib

/-!
Shallow embedding of `src/backend/director/tools/fal_video.py`
(`FalVideoGenerationTool`): a queue-based media-generation client that
submits a job, polls a status locator, and on completion fetches the
result and writes the asset bytes to a local path.

The HTTP environment is modelled by `Env`: the JSON of the submission
response (its two optional locators), the sequence of status responses
served by the status locator (indexed by poll number; `none` models a
response without a "status" key), the JSON served by the result locator
(a `video.url` field for the video job, an optional `images` list for
the image job), and the bytes served for any asset URL.

Side effects are recorded in a `Trace`: submission POSTs (by endpoint),
status-locator GETs, result-locator GETs, asset GETs, and file writes.
Exceptions become an `Err` inductive mirroring the distinct raise sites
of the Python source; the outer `try/except` of each job is the
`Err.wrapped` constructor carrying the operation label and the cause.

The text-to-video poll loop is `while True` with no attempt cap, so it
is embedded with explicit fuel: a result of `none` means the loop was
still polling when the fuel ran out (the real loop would continue).
The image-to-image loop carries `max_retries = 30` and is embedded with
the remaining attempt budget (`30 - retry_count`), which makes it total.
-/

namespace FalVideo

/-- Exceptions of the source, one constructor per distinct raise site. -/
inductive Err : Type where
  | apiKeyMissing : Err
  | validation : String → Err
  | missingLocators : Err
  | missingStatus : Err
  | statusKeyError : Err
  | unknownStatus : String → Err
  | timeoutError : Err
  | emptyResult : String → Err
  | videoKeyError : Err
  | indexError : Err
  | wrapped : String → Err → Err
deriving DecidableEq, Repr

/-- The JSON of the submission response: its two optional locators. -/
structure SubmitResp : Type where
  status_url : Option String
  response_url : Option String
deriving DecidableEq, Repr

/-- The HTTP environment one job run interacts with. -/
structure Env : Type where
  submitResp : SubmitResp
  statusAt : Nat → Option String
  videoUrl : Option String
  images : Option (List String)
  assetBytes : String → List Nat

/-- Record of the side effects a run performs. -/
structure Trace : Type where
  posts : List String
  statusPolls : Nat
  resultFetches : Nat
  assetFetches : Nat
  writes : List (String × List Nat)
deriving DecidableEq, Repr

def Trace.empty : Trace := ⟨[], 0, 0, 0, []⟩

def Trace.addPost (tr : Trace) (endpoint : String) : Trace :=
  ⟨tr.posts ++ [endpoint], tr.statusPolls, tr.resultFetches, tr.assetFetches, tr.writes⟩

def Trace.bumpPoll (tr : Trace) : Trace :=
  ⟨tr.posts, tr.statusPolls + 1, tr.resultFetches, tr.assetFetches, tr.writes⟩

def Trace.bumpResult (tr : Trace) : Trace :=
  ⟨tr.posts, tr.statusPolls, tr.resultFetches + 1, tr.assetFetches, tr.writes⟩

def Trace.bumpAsset (tr : Trace) : Trace :=
  ⟨tr.posts, tr.statusPolls, tr.resultFetches, tr.assetFetches + 1, tr.writes⟩

def Trace.addWrite (tr : Trace) (path : String) (bytes : List Nat) : Trace :=
  ⟨tr.posts, tr.statusPolls, tr.resultFetches, tr.assetFetches, tr.writes ++ [(path, bytes)]⟩

/-- `tr` with `n` status polls added: the trace after `n` pending loop turns. -/
def Trace.addPolls (tr : Trace) (n : Nat) : Trace :=
  ⟨tr.posts, tr.statusPolls + n, tr.resultFetches, tr.assetFetches, tr.writes⟩

/-- Return value of `text_to_video_async`. -/
structure TVOut : Type where
  status : String
  video_path : String
deriving DecidableEq, Repr

/-- Return value of `image_to_image_async`. -/
structure I2IOut : Type where
  status : String
  image_url : String
  image_path : String
deriving DecidableEq, Repr

/-- The tool object: `__init__` stores the key and two constants. -/
structure FalVideoGenerationTool : Type where
  api_key : String
  queue_endpoint : String
  polling_interval : Nat
deriving DecidableEq, Repr

/-- `FalVideoGenerationTool.__init__`: an empty (falsy) key raises,
otherwise the endpoint and polling interval constants are set. -/
def FalVideoGenerationTool.init (api_key : String) :
    Except Err FalVideoGenerationTool :=
  if api_key = "" then Except.error Err.apiKeyMissing
  else Except.ok ⟨api_key, "https://queue.fal.run", 10⟩

/-- `config.get("model_name", default)`. -/
def configModelName (config : Option String) (dflt : String) : String :=
  match config with
  | none => dflt
  | some m => m

/-- The COMPLETED branch of the text-to-video loop: fetch the result
locator, read `res["video"]["url"]`, download the asset, write it. -/
def textCompleted (env : Env) (save_at : String) (tr : Trace) :
    Option (Except Err TVOut) × Trace :=
  let tr2 := tr.bumpResult
  match env.videoUrl with
  | none => (some (Except.error Err.videoKeyError), tr2)
  | some url =>
      let b := env.assetBytes url
      (some (Except.ok ⟨"success", save_at⟩), (tr2.bumpAsset).addWrite save_at b)

/-- The `while True` poll loop of `text_to_video_async`, with fuel: the
first component is `none` when the fuel ran out while the loop was still
polling (the unbounded source loop would continue). `k` is the index of
the next status response. -/
def textPollLoop (env : Env) (save_at : String) :
    Nat → Nat → Trace → Option (Except Err TVOut) × Trace
  | 0, _, tr => (none, tr)
  | fuel + 1, k, tr =>
      let tr1 := tr.bumpPoll
      match env.statusAt k with
      | none => (some (Except.error Err.missingStatus), tr1)
      | some s =>
          if s ∈ ["IN_QUEUE", "IN_PROGRESS"] then
            textPollLoop env save_at fuel (k + 1) tr1
          else if s = "COMPLETED" then
            textCompleted env save_at tr1
          else
            (some (Except.error (Err.unknownStatus s)), tr1)

/-- Body of `text_to_video_async` inside its `try`: submit, check the
locators, poll. -/
def textRaw (tool : FalVideoGenerationTool) (env : Env)
    (save_at : String) (config : Option String) (fuel : Nat) :
    Option (Except Err TVOut) × Trace :=
  let model_name := configModelName config "fal-ai/fast-animatediff/text-to-video"
  let fal_queue_endpoint := tool.queue_endpoint ++ "/" ++ model_name
  let tr0 := Trace.empty.addPost fal_queue_endpoint
  match env.submitResp.status_url, env.submitResp.response_url with
  | some _, some _ => textPollLoop env save_at fuel 0 tr0
  | _, _ => (some (Except.error Err.missingLocators), tr0)

/-- `text_to_video_async`: the `try/except` wraps every raised exception
into one `Error generating video` exception carrying the cause. -/
def text_to_video_async (tool : FalVideoGenerationTool) (env : Env)
    (save_at : String) (config : Option String) (fuel : Nat) :
    Option (Except Err TVOut) × Trace :=
  match textRaw tool env save_at config fuel with
  | (none, tr) => (none, tr)
  | (some (Except.ok v), tr) => (some (Except.ok v), tr)
  | (some (Except.error e), tr) =>
      (some (Except.error (Err.wrapped "Error generating video" e)), tr)

/-- `res.get("images")` is falsy: the key is absent (`None`) or holds an
empty list. -/
def falsyImages : Option (List String) → Bool
  | none => true
  | some l => l.isEmpty

/-- The two guards of the image result extraction, exactly as in the
source: `if not res.get("images")` raises `No images returned`, then
`elif not res["images"]` raises `Empty images list`. -/
def extractImages (images : Option (List String)) : Except Err (List String) :=
  if falsyImages images then
    Except.error (Err.emptyResult "No images returned in FAL response.")
  else if (images.getD []).isEmpty then
    Except.error (Err.emptyResult "Empty images list in FAL response.")
  else
    Except.ok (images.getD [])

/-- Does a result extraction outcome carry the `Empty images list` error? -/
def isEmptyImagesListError : Except Err (List String) → Bool
  | Except.error (Err.emptyResult m) => m = "Empty images list in FAL response."
  | _ => false

/-- The COMPLETED branch of the image-to-image loop: fetch the result
locator, run the two guards, read `res["images"][0]["url"]`, download
the asset, write it. -/
def imageCompleted (env : Env) (save_at : String) (tr : Trace) :
    Except Err I2IOut × Trace :=
  let tr2 := tr.bumpResult
  match extractImages env.images with
  | Except.error e => (Except.error e, tr2)
  | Except.ok [] => (Except.error Err.indexError, tr2)
  | Except.ok (u :: _) =>
      let b := env.assetBytes u
      (Except.ok ⟨"success", u, save_at⟩, (tr2.bumpAsset).addWrite save_at b)

/-- The bounded poll loop of `image_to_image_async`. The first argument
is the remaining attempt budget `max_retries - retry_count`; the source
checks `retry_count >= max_retries` at the top of each turn, which is
budget zero here. `k` is the index of the next status response. -/
def imagePollLoop (env : Env) (save_at : String) :
    Nat → Nat → Trace → Except Err I2IOut × Trace
  | 0, _, tr => (Except.error Err.timeoutError, tr)
  | r + 1, k, tr =>
      let tr1 := tr.bumpPoll
      match env.statusAt k with
      | none => (Except.error Err.statusKeyError, tr1)
      | some s =>
          if s ∈ ["IN_QUEUE", "IN_PROGRESS"] then
            imagePollLoop env save_at r (k + 1) tr1
          else if s = "COMPLETED" then
            imageCompleted env save_at tr1
          else
            (Except.error (Err.unknownStatus s), tr1)

/-- `max_retries = 30  # 5 minutes with 10-second intervals`. -/
def max_retries : Nat := 30

/-- Body of `image_to_image_async` inside its `try`: validate the three
required arguments, submit, check the locators, poll with the cap. -/
def imageRaw (tool : FalVideoGenerationTool) (env : Env)
    (image_url save_at prompt : String) (config : Option String) :
    Except Err I2IOut × Trace :=
  if image_url = "" ∨ save_at = "" then
    (Except.error (Err.validation "image_url and save_at are required parameters"),
      Trace.empty)
  else if prompt = "" then
    (Except.error (Err.validation "prompt is a required parameter"), Trace.empty)
  else
    let model_name := configModelName config "fal-ai/flux-lora-canny"
    let fal_queue_endpoint := tool.queue_endpoint ++ "/" ++ model_name
    let tr0 := Trace.empty.addPost fal_queue_endpoint
    match env.submitResp.status_url, env.submitResp.response_url with
    | some _, some _ => imagePollLoop env save_at max_retries 0 tr0
    | _, _ => (Except.error Err.missingLocators, tr0)

/-- `image_to_image_async`: the `try/except` wraps every raised exception
into one `Error generating image` exception carrying the cause. -/
def image_to_image_async (tool : FalVideoGenerationTool) (env : Env)
    (image_url save_at prompt : String) (config : Option String) :
    Except Err I2IOut × Trace :=
  match imageRaw tool env image_url save_at prompt config with
  | (Except.ok v, tr) => (Except.ok v, tr)
  | (Except.error e, tr) => (Except.error (Err.wrapped "Error generating image" e), tr)

/-- The `k`-th status response exists and is a non-terminal (pending)
status, one of IN_QUEUE or IN_PROGRESS. -/
def Pending (env : Env) (k : Nat) : Prop :=
  ∃ s, env.statusAt k = some s ∧ s ∈ ["IN_QUEUE", "IN_PROGRESS"]

/-- Is this outcome the once-wrapped image validation error? -/
def isWrappedValidation : Except Err I2IOut → Bool
  | Except.error (Err.wrapped l (Err.validation _)) => l = "Error generating image"
  | _ => false

/-- A tool built from a non-empty key, as `__init__` builds it. -/
def toolX : FalVideoGenerationTool := ⟨"test-key", "https://queue.fal.run", 10⟩

/-- An environment whose status locator serves IN_QUEUE forever. -/
def envAllPending : Env :=
  ⟨⟨some "https://q/s", some "https://q/r"⟩, fun _ => some "IN_QUEUE",
   none, none, fun _ => []⟩

/-- 30 pending statuses, then COMPLETED forever: the status sequence ends
in COMPLETED, but the first COMPLETED sits just past the attempt cap. -/
def envLateCompleted : Env :=
  ⟨⟨some "https://q/s", some "https://q/r"⟩,
   fun k => if k < 30 then some "IN_QUEUE" else some "COMPLETED",
   none, some ["https://x/img.png"], fun _ => []⟩

/-- The end-to-end video scenario: locators present, first poll
IN_PROGRESS, second COMPLETED, result `video.url`, asset bytes 0x00 0x01. -/
def envVideoScenario : Env :=
  ⟨⟨some "https://q/s", some "https://q/r"⟩,
   fun k => if k = 0 then some "IN_PROGRESS" else some "COMPLETED",
   some "https://x/vid.mp4", none,
   fun u => if u = "https://x/vid.mp4" then [0, 1] else []⟩

/-- A submission response with no status locator. -/
def envNoStatusUrl : Env :=
  ⟨⟨none, some "https://q/r"⟩, fun _ => some "IN_QUEUE", none, none, fun _ => []⟩

/-- One IN_QUEUE poll, then COMPLETED, with both result shapes present. -/
def envQuickCompleted : Env :=
  ⟨⟨some "https://q/s", some "https://q/r"⟩,
   fun k => if k = 0 then some "IN_QUEUE" else some "COMPLETED",
   some "https://x/vid.mp4", some ["https://x/img.png"], fun _ => [7]⟩

/-- COMPLETED at once, but the result response carries no `images` key. -/
def envNoImages : Env :=
  ⟨⟨some "https://q/s", some "https://q/r"⟩, fun _ => some "COMPLETED",
   some "https://x/vid.mp4", none, fun _ => []⟩

/-- A status response outside the recognized set. -/
def envFailedStatus : Env :=
  ⟨⟨some "https://q/s", some "https://q/r"⟩, fun _ => some "FAILED",
   none, none, fun _ => []⟩

/-! ## Helper lemmas about the loops and traces -/

theorem Trace.bumpPoll_addPolls (tr : Trace) (n : Nat) :
    (tr.bumpPoll).addPolls n = tr.addPolls (n + 1) := by
  have hn : tr.statusPolls + 1 + n = tr.statusPolls + (n + 1) := by omega
  simp [Trace.bumpPoll, Trace.addPolls, hn]

/-- Stepping the unbounded video loop over `n` pending statuses consumes
`n` fuel and records `n` status polls, touching nothing else. -/
theorem textPollLoop_pending_prefix (env : Env) (save_at : String) :
    ∀ n m k tr, (∀ j, j < n → Pending env (k + j)) →
      textPollLoop env save_at (m + n) k tr =
        textPollLoop env save_at m (k + n) (tr.addPolls n) := by
  intro n
  induction n with
  | zero => intro m k tr _; rfl
  | succ n ih =>
      intro m k tr h
      obtain ⟨s, hs, hmem⟩ := h 0 (Nat.succ_pos n)
      rw [Nat.add_zero] at hs
      show textPollLoop env save_at (m + n + 1) k tr = _
      simp only [textPollLoop, hs]
      rw [if_pos hmem]
      have hk : ∀ j, j < n → Pending env (k + 1 + j) := by
        intro j hj
        have := h (j + 1) (by omega)
        have he : k + (j + 1) = k + 1 + j := by omega
        rwa [he] at this
      rw [ih m (k + 1) tr.bumpPoll hk, Trace.bumpPoll_addPolls]
      have he : k + 1 + n = k + (n + 1) := by omega
      rw [he]

/-- Stepping the bounded image loop over `n` pending statuses consumes
`n` of the attempt budget and records `n` status polls. -/
theorem imagePollLoop_pending_prefix (env : Env) (save_at : String) :
    ∀ n m k tr, (∀ j, j < n → Pending env (k + j)) →
      imagePollLoop env save_at (m + n) k tr =
        imagePollLoop env save_at m (k + n) (tr.addPolls n) := by
  intro n
  induction n with
  | zero => intro m k tr _; rfl
  | succ n ih =>
      intro m k tr h
      obtain ⟨s, hs, hmem⟩ := h 0 (Nat.succ_pos n)
      rw [Nat.add_zero] at hs
      show imagePollLoop env save_at (m + n + 1) k tr = _
      simp only [imagePollLoop, hs]
      rw [if_pos hmem]
      have hk : ∀ j, j < n → Pending env (k + 1 + j) := by
        intro j hj
        have := h (j + 1) (by omega)
        have he : k + (j + 1) = k + 1 + j := by omega
        rwa [he] at this
      rw [ih m (k + 1) tr.bumpPoll hk, Trace.bumpPoll_addPolls]
      have he : k + 1 + n = k + (n + 1) := by omega
      rw [he]

theorem textPollLoop_completed (env : Env) (save_at : String) (f k : Nat) (tr : Trace)
    (h : env.statusAt k = some "COMPLETED") :
    textPollLoop env save_at (f + 1) k tr = textCompleted env save_at tr.bumpPoll := by
  rw [textPollLoop, h]
  rfl

theorem imagePollLoop_completed (env : Env) (save_at : String) (r k : Nat) (tr : Trace)
    (h : env.statusAt k = some "COMPLETED") :
    imagePollLoop env save_at (r + 1) k tr = imageCompleted env save_at tr.bumpPoll := by
  rw [imagePollLoop, h]
  rfl

theorem textPollLoop_unknown (env : Env) (save_at : String) (f k : Nat) (tr : Trace)
    (s : String) (h : env.statusAt k = some s)
    (h1 : s ∉ (["IN_QUEUE", "IN_PROGRESS"] : List String)) (h2 : s ≠ "COMPLETED") :
    textPollLoop env save_at (f + 1) k tr =
      (some (Except.error (Err.unknownStatus s)), tr.bumpPoll) := by
  simp only [textPollLoop, h]
  rw [if_neg h1, if_neg h2]

theorem imagePollLoop_unknown (env : Env) (save_at : String) (r k : Nat) (tr : Trace)
    (s : String) (h : env.statusAt k = some s)
    (h1 : s ∉ (["IN_QUEUE", "IN_PROGRESS"] : List String)) (h2 : s ≠ "COMPLETED") :
    imagePollLoop env save_at (r + 1) k tr =
      (Except.error (Err.unknownStatus s), tr.bumpPoll) := by
  simp only [imagePollLoop, h]
  rw [if_neg h1, if_neg h2]

/-- The `try/except` of the video job passes the trace through. -/
theorem text_async_snd (tool : FalVideoGenerationTool) (env : Env)
    (save_at : String) (config : Option String) (fuel : Nat) :
    (text_to_video_async tool env save_at config fuel).2 =
      (textRaw tool env save_at config fuel).2 := by
  unfold text_to_video_async
  rcases htr : textRaw tool env save_at config fuel with ⟨o, tr⟩
  rcases o with _ | o
  · rfl
  · rcases o with e | v <;> rfl

/-- The `try/except` of the image job passes the trace through. -/
theorem image_async_snd (tool : FalVideoGenerationTool) (env : Env)
    (image_url save_at prompt : String) (config : Option String) :
    (image_to_image_async tool env image_url save_at prompt config).2 =
      (imageRaw tool env image_url save_at prompt config).2 := by
  unfold image_to_image_async
  rcases htr : imageRaw tool env image_url save_at prompt config with ⟨o, tr⟩
  rcases o with e | v <;> rfl

theorem textCompleted_resultFetches (env : Env) (save_at : String) (tr : Trace) :
    (textCompleted env save_at tr).2.resultFetches = tr.resultFetches + 1 := by
  unfold textCompleted
  rcases env.videoUrl with _ | u <;>
    simp [Trace.bumpResult, Trace.bumpAsset, Trace.addWrite]

theorem textCompleted_statusPolls (env : Env) (save_at : String) (tr : Trace) :
    (textCompleted env save_at tr).2.statusPolls = tr.statusPolls := by
  unfold textCompleted
  rcases env.videoUrl with _ | u <;>
    simp [Trace.bumpResult, Trace.bumpAsset, Trace.addWrite]

theorem imageCompleted_resultFetches (env : Env) (save_at : String) (tr : Trace) :
    (imageCompleted env save_at tr).2.resultFetches = tr.resultFetches + 1 := by
  unfold imageCompleted
  rcases h : extractImages env.images with e | l
  · simp [Trace.bumpResult]
  · rcases l with _ | ⟨u, us⟩ <;>
      simp [Trace.bumpResult, Trace.bumpAsset, Trace.addWrite]

theorem imageCompleted_statusPolls (env : Env) (save_at : String) (tr : Trace) :
    (imageCompleted env save_at tr).2.statusPolls = tr.statusPolls := by
  unfold imageCompleted
  rcases h : extractImages env.images with e | l
  · simp [Trace.bumpResult]
  · rcases l with _ | ⟨u, us⟩ <;>
      simp [Trace.bumpResult, Trace.bumpAsset, Trace.addWrite]

/-- A missing `images` key and an empty `images` list both fail the first
guard (`not res.get("images")`). -/
theorem extractImages_falsy (images : Option (List String))
    (h : images = none ∨ images = some []) :
    extractImages images =
      Except.error (Err.emptyResult "No images returned in FAL response.") := by
  rcases h with rfl | rfl <;> rfl

/-- On a falsy `images` field the COMPLETED branch raises the
`No images returned` error and performs no asset fetch and no write. -/
theorem imageCompleted_falsy (env : Env) (save_at : String) (tr : Trace)
    (h : env.images = none ∨ env.images = some []) :
    imageCompleted env save_at tr =
      (Except.error (Err.emptyResult "No images returned in FAL response."),
        tr.bumpResult) := by
  unfold imageCompleted
  rw [extractImages_falsy env.images h]

/-- With both locators present the video job body is its poll loop,
started on the post-submission trace. -/
theorem textRaw_eq_loop (tool : FalVideoGenerationTool) (env : Env)
    (save_at : String) (config : Option String) (fuel : Nat) (su ru : String)
    (hsu : env.submitResp.status_url = some su)
    (hru : env.submitResp.response_url = some ru) :
    textRaw tool env save_at config fuel =
      textPollLoop env save_at fuel 0
        (Trace.empty.addPost (tool.queue_endpoint ++ "/" ++
          configModelName config "fal-ai/fast-animatediff/text-to-video")) := by
  simp only [textRaw, hsu, hru]

/-- With non-empty arguments and both locators present the image job body
is its poll loop with the 30-attempt budget. -/
theorem imageRaw_eq_loop (tool : FalVideoGenerationTool) (env : Env)
    (image_url save_at prompt : String) (config : Option String) (su ru : String)
    (hiu : image_url ≠ "") (hsa : save_at ≠ "") (hp : prompt ≠ "")
    (hsu : env.submitResp.status_url = some su)
    (hru : env.submitResp.response_url = some ru) :
    imageRaw tool env image_url save_at prompt config =
      imagePollLoop env save_at max_retries 0
        (Trace.empty.addPost (tool.queue_endpoint ++ "/" ++
          configModelName config "fal-ai/flux-lora-canny")) := by
  have hv : ¬(image_url = "" ∨ save_at = "") := by tauto
  simp only [imageRaw, if_neg hv, if_neg hp, hsu, hru]

/-- A status sequence pending up to index `n` and COMPLETED at `n` drives
the video loop, given enough fuel, into the COMPLETED branch after `n + 1`
polls. -/
theorem textPollLoop_run_completed (env : Env) (save_at : String) (n m : Nat)
    (tr : Trace) (hpend : ∀ j, j < n → Pending env j)
    (hc : env.statusAt n = some "COMPLETED") :
    textPollLoop env save_at (m + 1 + n) 0 tr =
      textCompleted env save_at ((tr.addPolls n).bumpPoll) := by
  have hp0 : ∀ j, j < n → Pending env (0 + j) := by
    intro j hj
    rw [Nat.zero_add]
    exact hpend j hj
  have hpre := textPollLoop_pending_prefix env save_at n (m + 1) 0 tr hp0
  rw [Nat.zero_add] at hpre
  rw [hpre, textPollLoop_completed env save_at m n _ hc]

/-- The image-loop analogue of `textPollLoop_run_completed`. -/
theorem imagePollLoop_run_completed (env : Env) (save_at : String) (n m : Nat)
    (tr : Trace) (hpend : ∀ j, j < n → Pending env j)
    (hc : env.statusAt n = some "COMPLETED") :
    imagePollLoop env save_at (m + 1 + n) 0 tr =
      imageCompleted env save_at ((tr.addPolls n).bumpPoll) := by
  have hp0 : ∀ j, j < n → Pending env (0 + j) := by
    intro j hj
    rw [Nat.zero_add]
    exact hpend j hj
  have hpre := imagePollLoop_pending_prefix env save_at n (m + 1) 0 tr hp0
  rw [Nat.zero_add] at hpre
  rw [hpre, imagePollLoop_completed env save_at m n _ hc]

/-- A status sequence pending up to `n` with an unrecognized status at `n`
drives the video loop, given enough fuel, into the unknown-status error
after `n + 1` polls. -/
theorem textPollLoop_run_unknown (env : Env) (save_at : String) (n m : Nat)
    (tr : Trace) (s : String) (hpend : ∀ j, j < n → Pending env j)
    (hs : env.statusAt n = some s)
    (h1 : s ∉ (["IN_QUEUE", "IN_PROGRESS"] : List String)) (h2 : s ≠ "COMPLETED") :
    textPollLoop env save_at (m + 1 + n) 0 tr =
      (some (Except.error (Err.unknownStatus s)), (tr.addPolls n).bumpPoll) := by
  have hp0 : ∀ j, j < n → Pending env (0 + j) := by
    intro j hj
    rw [Nat.zero_add]
    exact hpend j hj
  have hpre := textPollLoop_pending_prefix env save_at n (m + 1) 0 tr hp0
  rw [Nat.zero_add] at hpre
  rw [hpre, textPollLoop_unknown env save_at m n _ s hs h1 h2]

/-- The image-loop analogue of `textPollLoop_run_unknown`. -/
theorem imagePollLoop_run_unknown (env : Env) (save_at : String) (n m : Nat)
    (tr : Trace) (s : String) (hpend : ∀ j, j < n → Pending env j)
    (hs : env.statusAt n = some s)
    (h1 : s ∉ (["IN_QUEUE", "IN_PROGRESS"] : List String)) (h2 : s ≠ "COMPLETED") :
    imagePollLoop env save_at (m + 1 + n) 0 tr =
      (Except.error (Err.unknownStatus s), (tr.addPolls n).bumpPoll) := by
  have hp0 : ∀ j, j < n → Pending env (0 + j) := by
    intro j hj
    rw [Nat.zero_add]
    exact hpend j hj
  have hpre := imagePollLoop_pending_prefix env save_at n (m + 1) 0 tr hp0
  rw [Nat.zero_add] at hpre
  rw [hpre, imagePollLoop_unknown env save_at m n _ s hs h1 h2]

/-- An all-pending status sequence exhausts any fuel bound on the video
loop: the loop is still polling after `fuel` polls. -/
theorem textPollLoop_run_pending (env : Env) (save_at : String) (fuel : Nat)
    (tr : Trace) (hpend : ∀ j, j < fuel → Pending env j) :
    textPollLoop env save_at fuel 0 tr = (none, tr.addPolls fuel) := by
  have hp0 : ∀ j, j < fuel → Pending env (0 + j) := by
    intro j hj
    rw [Nat.zero_add]
    exact hpend j hj
  have hpre := textPollLoop_pending_prefix env save_at fuel 0 0 tr hp0
  rw [Nat.zero_add] at hpre
  exact hpre

/-- An all-pending status sequence exhausts the image loop's 30-attempt
budget: `TimeoutError` after exactly 30 polls. -/
theorem imagePollLoop_run_timeout (env : Env) (save_at : String)
    (tr : Trace) (hpend : ∀ j, j < 30 → Pending env j) :
    imagePollLoop env save_at max_retries 0 tr =
      (Except.error Err.timeoutError, tr.addPolls 30) := by
  have hp0 : ∀ j, j < 30 → Pending env (0 + j) := by
    intro j hj
    rw [Nat.zero_add]
    exact hpend j hj
  have hpre := imagePollLoop_pending_prefix env save_at 30 0 0 tr hp0
  rw [Nat.zero_add] at hpre
  exact hpre

/-- Wrapping step of the video job on an errored body. -/
theorem text_async_of_raw_error (tool : FalVideoGenerationTool) (env : Env)
    (save_at : String) (config : Option String) (fuel : Nat) (e : Err) (tr : Trace)
    (h : textRaw tool env save_at config fuel = (some (Except.error e), tr)) :
    text_to_video_async tool env save_at config fuel =
      (some (Except.error (Err.wrapped "Error generating video" e)), tr) := by
  simp [text_to_video_async, h]

/-- Fuel exhaustion passes through the wrapping step of the video job. -/
theorem text_async_of_raw_none (tool : FalVideoGenerationTool) (env : Env)
    (save_at : String) (config : Option String) (fuel : Nat) (tr : Trace)
    (h : textRaw tool env save_at config fuel = (none, tr)) :
    text_to_video_async tool env save_at config fuel = (none, tr) := by
  simp [text_to_video_async, h]

/-- Wrapping step of the image job on an errored body. -/
theorem image_async_of_raw_error (tool : FalVideoGenerationTool) (env : Env)
    (image_url save_at prompt : String) (config : Option String) (e : Err) (tr : Trace)
    (h : imageRaw tool env image_url save_at prompt config = (Except.error e, tr)) :
    image_to_image_async tool env image_url save_at prompt config =
      (Except.error (Err.wrapped "Error generating image" e), tr) := by
  simp [image_to_image_async, h]

/-! ## Claim theorems -/

/-- C1: on the status sequence that stays IN_QUEUE forever,
`image_to_image_async` raises `TimeoutError` after exactly 30 status
polls as the claim states, but `text_to_video_async` has no attempt cap:
for every bound `fuel`, after `fuel` status polls it is still polling
and has raised nothing, so it never times out and polls forever. -/
theorem C1_timeout_cap_only_in_image_job :
    (∀ fuel : Nat,
      (text_to_video_async toolX envAllPending "out.mp4" none fuel).1 = none ∧
      (text_to_video_async toolX envAllPending "out.mp4" none fuel).2.statusPolls = fuel) ∧
    image_to_image_async toolX envAllPending "https://x/in.png" "out.png" "p" none =
      (Except.error (Err.wrapped "Error generating image" Err.timeoutError),
       ⟨["https://queue.fal.run/fal-ai/flux-lora-canny"], 30, 0, 0, []⟩) := by
  constructor
  · intro fuel
    have hpend : ∀ j, j < fuel → Pending envAllPending j := by
      intro j _
      exact ⟨"IN_QUEUE", rfl, by simp⟩
    have hraw : textRaw toolX envAllPending "out.mp4" none fuel =
        (none, (Trace.empty.addPost
          "https://queue.fal.run/fal-ai/fast-animatediff/text-to-video").addPolls fuel) := by
      rw [textRaw_eq_loop toolX envAllPending "out.mp4" none fuel
        "https://q/s" "https://q/r" rfl rfl]
      exact textPollLoop_run_pending envAllPending "out.mp4" fuel _ hpend
    rw [text_async_of_raw_none toolX envAllPending "out.mp4" none fuel _ hraw]
    exact ⟨rfl, by simp [Trace.addPolls, Trace.addPost, Trace.empty]⟩
  · have hpend : ∀ j, j < 30 → Pending envAllPending j := by
      intro j _
      exact ⟨"IN_QUEUE", rfl, by simp⟩
    have hraw : imageRaw toolX envAllPending "https://x/in.png" "out.png" "p" none =
        (Except.error Err.timeoutError, (Trace.empty.addPost
          "https://queue.fal.run/fal-ai/flux-lora-canny").addPolls 30) := by
      rw [imageRaw_eq_loop toolX envAllPending "https://x/in.png" "out.png" "p" none
        "https://q/s" "https://q/r" (by decide) (by decide) (by decide) rfl rfl]
      exact imagePollLoop_run_timeout envAllPending "out.png" _ hpend
    rw [image_async_of_raw_error toolX envAllPending "https://x/in.png" "out.png" "p"
      none Err.timeoutError _ hraw]
    rfl

/-- C2: every failure inside a job body surfaces to the caller as exactly
one wrapped exception whose label names the operation and whose cause is
the original exception; conversely every error the caller sees is such a
single wrap of an error of the body. -/
theorem C2_single_wrapped_error_with_cause (tool : FalVideoGenerationTool) (env : Env)
    (image_url save_at prompt : String) (config : Option String) (fuel : Nat) :
    (∀ e tr, textRaw tool env save_at config fuel = (some (Except.error e), tr) →
      text_to_video_async tool env save_at config fuel =
        (some (Except.error (Err.wrapped "Error generating video" e)), tr)) ∧
    (∀ e' tr, text_to_video_async tool env save_at config fuel =
        (some (Except.error e'), tr) →
      ∃ e, e' = Err.wrapped "Error generating video" e ∧
        textRaw tool env save_at config fuel = (some (Except.error e), tr)) ∧
    (∀ e tr, imageRaw tool env image_url save_at prompt config = (Except.error e, tr) →
      image_to_image_async tool env image_url save_at prompt config =
        (Except.error (Err.wrapped "Error generating image" e), tr)) ∧
    (∀ e' tr, image_to_image_async tool env image_url save_at prompt config =
        (Except.error e', tr) →
      ∃ e, e' = Err.wrapped "Error generating image" e ∧
        imageRaw tool env image_url save_at prompt config = (Except.error e, tr)) := by
  refine ⟨?_, ?_, ?_, ?_⟩
  · intro e tr h
    simp [text_to_video_async, h]
  · intro e' tr h
    unfold text_to_video_async at h
    rcases hr : textRaw tool env save_at config fuel with ⟨o, tr1⟩
    rw [hr] at h
    rcases o with _ | o
    · simp at h
    · rcases o with e | v
      · simp only [Prod.mk.injEq, Option.some.injEq, Except.error.injEq] at h
        exact ⟨e, h.1.symm, by rw [h.2]⟩
      · simp at h
  · intro e tr h
    simp [image_to_image_async, h]
  · intro e' tr h
    unfold image_to_image_async at h
    rcases hr : imageRaw tool env image_url save_at prompt config with ⟨o, tr1⟩
    rw [hr] at h
    rcases o with e | v
    · simp only [Prod.mk.injEq, Except.error.injEq] at h
      exact ⟨e, h.1.symm, by rw [h.2]⟩
    · simp at h

/-- C2 witness: on a submission response missing its locators, both jobs
surface exactly the once-wrapped missing-locator error. -/
theorem C2_single_wrapped_error_with_cause_witness :
    text_to_video_async toolX envNoStatusUrl "out.png" none 1 =
      (some (Except.error (Err.wrapped "Error generating video" Err.missingLocators)),
       Trace.empty.addPost "https://queue.fal.run/fal-ai/fast-animatediff/text-to-video") ∧
    image_to_image_async toolX envNoStatusUrl "https://x/in.png" "out.png" "p" none =
      (Except.error (Err.wrapped "Error generating image" Err.missingLocators),
       Trace.empty.addPost "https://queue.fal.run/fal-ai/flux-lora-canny") :=
  ⟨(C2_single_wrapped_error_with_cause toolX envNoStatusUrl "https://x/in.png" "out.png"
      "p" none 1).1 Err.missingLocators
      (Trace.empty.addPost "https://queue.fal.run/fal-ai/fast-animatediff/text-to-video") rfl,
   (C2_single_wrapped_error_with_cause toolX envNoStatusUrl "https://x/in.png" "out.png"
      "p" none 1).2.2.1 Err.missingLocators
      (Trace.empty.addPost "https://queue.fal.run/fal-ai/flux-lora-canny") rfl⟩

/-- C7: the end-to-end video scenario: locators present, first poll
IN_PROGRESS, second COMPLETED, result `video.url`, asset bytes 0x00 0x01;
the job performs one POST, two status polls, one result fetch, one asset
fetch, writes exactly those bytes to `save_at`, and returns the success
record with `video_path = save_at`. -/
theorem C7_video_end_to_end :
    text_to_video_async toolX envVideoScenario "vid.mp4" none 2 =
      (some (Except.ok ⟨"success", "vid.mp4"⟩),
       ⟨["https://queue.fal.run/fal-ai/fast-animatediff/text-to-video"], 2, 1, 1,
        [("vid.mp4", [0, 1])]⟩) := rfl

/-- C9: constructing the tool with an empty key raises, and any non-empty
key yields the fixed queue endpoint and the 10-second polling interval. -/
theorem C9_empty_api_key_rejected (api_key : String) (h : api_key ≠ "") :
    FalVideoGenerationTool.init "" = Except.error Err.apiKeyMissing ∧
    FalVideoGenerationTool.init api_key =
      Except.ok ⟨api_key, "https://queue.fal.run", 10⟩ := by
  refine ⟨rfl, ?_⟩
  unfold FalVideoGenerationTool.init
  rw [if_neg h]

/-- C9 witness at the key `"test-key"`. -/
theorem C9_empty_api_key_rejected_witness :
    FalVideoGenerationTool.init "" = Except.error Err.apiKeyMissing ∧
    FalVideoGenerationTool.init "test-key" =
      Except.ok ⟨"test-key", "https://queue.fal.run", 10⟩ :=
  C9_empty_api_key_rejected "test-key" (by decide)

/-- C10: the `Empty images list in FAL response.` branch is unreachable:
no result response makes `extractImages` return that error, because
whenever the first guard (`not res.get("images")`) passes, the `images`
list is non-empty, so the `elif` guard is evaluated only on non-empty
lists. -/
theorem C10_empty_list_branch_unreachable (images : Option (List String)) :
    isEmptyImagesListError (extractImages images) = false ∧
    (falsyImages images = false → (images.getD []).isEmpty = false) := by
  rcases images with _ | l
  · refine ⟨rfl, ?_⟩
    intro h
    simp [falsyImages] at h
  · rcases l with _ | ⟨a, as⟩
    · refine ⟨rfl, ?_⟩
      intro h
      simp [falsyImages] at h
    · exact ⟨rfl, fun _ => rfl⟩

/-- C10 witness at a one-element `images` list. -/
theorem C10_empty_list_branch_unreachable_witness :
    isEmptyImagesListError (extractImages (some ["https://x/img.png"])) = false ∧
    List.isEmpty ((some ["https://x/img.png"] : Option (List String)).getD []) = false :=
  ⟨(C10_empty_list_branch_unreachable (some ["https://x/img.png"])).1,
   (C10_empty_list_branch_unreachable (some ["https://x/img.png"])).2 rfl⟩

/-- C3 counterexample: for `envLateCompleted`, whose status sequence is
IN_QUEUE for the first 30 polls and COMPLETED from then on — a sequence
ending in COMPLETED — `image_to_image_async` raises `TimeoutError`
having performed zero result fetches, not exactly one. -/
theorem C3_late_completed_counterexample :
    envLateCompleted.statusAt 30 = some "COMPLETED" ∧
    envLateCompleted.statusAt 31 = some "COMPLETED" ∧
    (image_to_image_async toolX envLateCompleted "https://x/in.png" "out.png" "p" none).1 =
      Except.error (Err.wrapped "Error generating image" Err.timeoutError) ∧
    (image_to_image_async toolX envLateCompleted
      "https://x/in.png" "out.png" "p" none).2.resultFetches = 0 :=
  ⟨rfl, rfl, rfl, rfl⟩

/-- C3 amended: for a status sequence pending before its first COMPLETED
at index `n`, `text_to_video_async` performs exactly one result fetch
(after the COMPLETED observation, on poll `n + 1`) for every sufficient
fuel bound, and `image_to_image_async` does the same provided `n < 30`;
if instead `n ≥ 30` the image job raises `TimeoutError` having performed
zero result fetches. -/
theorem C3_one_result_fetch_within_cap (tool : FalVideoGenerationTool) (env : Env)
    (image_url save_at prompt : String) (config : Option String) (n : Nat) (su ru : String)
    (hiu : image_url ≠ "") (hsa : save_at ≠ "") (hp : prompt ≠ "")
    (hsu : env.submitResp.status_url = some su)
    (hru : env.submitResp.response_url = some ru)
    (hpend : ∀ j, j < n → Pending env j)
    (hc : env.statusAt n = some "COMPLETED") :
    (∀ fuel, n < fuel →
      (text_to_video_async tool env save_at config fuel).2.resultFetches = 1 ∧
      (text_to_video_async tool env save_at config fuel).2.statusPolls = n + 1) ∧
    (n < 30 →
      (image_to_image_async tool env image_url save_at prompt config).2.resultFetches = 1 ∧
      (image_to_image_async tool env image_url save_at prompt config).2.statusPolls = n + 1) ∧
    (30 ≤ n →
      (image_to_image_async tool env image_url save_at prompt config).1 =
        Except.error (Err.wrapped "Error generating image" Err.timeoutError) ∧
      (image_to_image_async tool env image_url save_at prompt config).2.resultFetches = 0) := by
  refine ⟨?_, ?_, ?_⟩
  · intro fuel hf
    obtain ⟨m, rfl⟩ : ∃ m, fuel = m + 1 + n := ⟨fuel - n - 1, by omega⟩
    have hraw : textRaw tool env save_at config (m + 1 + n) =
        textCompleted env save_at
          (((Trace.empty.addPost (tool.queue_endpoint ++ "/" ++
            configModelName config "fal-ai/fast-animatediff/text-to-video")).addPolls
              n).bumpPoll) := by
      rw [textRaw_eq_loop tool env save_at config (m + 1 + n) su ru hsu hru]
      exact textPollLoop_run_completed env save_at n m _ hpend hc
    constructor
    · rw [text_async_snd tool env save_at config (m + 1 + n), hraw,
        textCompleted_resultFetches]
      simp [Trace.addPolls, Trace.bumpPoll, Trace.addPost, Trace.empty]
    · rw [text_async_snd tool env save_at config (m + 1 + n), hraw,
        textCompleted_statusPolls]
      simp [Trace.addPolls, Trace.bumpPoll, Trace.addPost, Trace.empty]
  · intro hn
    obtain ⟨m, hm⟩ : ∃ m, max_retries = m + 1 + n :=
      ⟨29 - n, by simp only [max_retries]; omega⟩
    have hraw : imageRaw tool env image_url save_at prompt config =
        imageCompleted env save_at
          (((Trace.empty.addPost (tool.queue_endpoint ++ "/" ++
            configModelName config "fal-ai/flux-lora-canny")).addPolls n).bumpPoll) := by
      rw [imageRaw_eq_loop tool env image_url save_at prompt config su ru hiu hsa hp
        hsu hru, hm]
      exact imagePollLoop_run_completed env save_at n m _ hpend hc
    constructor
    · rw [image_async_snd tool env image_url save_at prompt config, hraw,
        imageCompleted_resultFetches]
      simp [Trace.addPolls, Trace.bumpPoll, Trace.addPost, Trace.empty]
    · rw [image_async_snd tool env image_url save_at prompt config, hraw,
        imageCompleted_statusPolls]
      simp [Trace.addPolls, Trace.bumpPoll, Trace.addPost, Trace.empty]
  · intro hn
    have hpend30 : ∀ j, j < 30 → Pending env j := fun j hj => hpend j (by omega)
    have hraw : imageRaw tool env image_url save_at prompt config =
        (Except.error Err.timeoutError,
         (Trace.empty.addPost (tool.queue_endpoint ++ "/" ++
           configModelName config "fal-ai/flux-lora-canny")).addPolls 30) := by
      rw [imageRaw_eq_loop tool env image_url save_at prompt config su ru hiu hsa hp
        hsu hru]
      exact imagePollLoop_run_timeout env save_at _ hpend30
    rw [image_async_of_raw_error tool env image_url save_at prompt config
      Err.timeoutError _ hraw]
    exact ⟨rfl, by simp [Trace.addPolls, Trace.addPost, Trace.empty]⟩

/-- C3 amended witness: one IN_QUEUE poll, COMPLETED on the second; both
jobs perform exactly one result fetch after two status polls. -/
theorem C3_one_result_fetch_within_cap_witness :
    ((text_to_video_async toolX envQuickCompleted "out.png" none 2).2.resultFetches = 1 ∧
     (text_to_video_async toolX envQuickCompleted "out.png" none 2).2.statusPolls = 2) ∧
    ((image_to_image_async toolX envQuickCompleted
       "https://x/in.png" "out.png" "p" none).2.resultFetches = 1 ∧
     (image_to_image_async toolX envQuickCompleted
       "https://x/in.png" "out.png" "p" none).2.statusPolls = 2) := by
  have h := C3_one_result_fetch_within_cap toolX envQuickCompleted "https://x/in.png"
    "out.png" "p" none 1 "https://q/s" "https://q/r" (by decide) (by decide) (by decide)
    rfl rfl
    (by
      intro j hj
      have hj0 : j = 0 := by omega
      subst hj0
      exact ⟨"IN_QUEUE", rfl, by simp⟩)
    rfl
  exact ⟨h.1 2 (by omega), h.2.1 (by omega)⟩

/-- C4: if the submission response lacks either locator, both jobs fail
with the wrapped missing-locator protocol error before any status poll. -/
theorem C4_missing_locator_fails_before_polling (tool : FalVideoGenerationTool) (env : Env)
    (image_url save_at prompt : String) (config : Option String) (fuel : Nat)
    (hloc : env.submitResp.status_url = none ∨ env.submitResp.response_url = none)
    (hiu : image_url ≠ "") (hsa : save_at ≠ "") (hp : prompt ≠ "") :
    (text_to_video_async tool env save_at config fuel).1 =
      some (Except.error (Err.wrapped "Error generating video" Err.missingLocators)) ∧
    (text_to_video_async tool env save_at config fuel).2.statusPolls = 0 ∧
    (image_to_image_async tool env image_url save_at prompt config).1 =
      Except.error (Err.wrapped "Error generating image" Err.missingLocators) ∧
    (image_to_image_async tool env image_url save_at prompt config).2.statusPolls = 0 := by
  have hv : ¬(image_url = "" ∨ save_at = "") := by tauto
  have htraw : textRaw tool env save_at config fuel =
      (some (Except.error Err.missingLocators),
       Trace.empty.addPost (tool.queue_endpoint ++ "/" ++
         configModelName config "fal-ai/fast-animatediff/text-to-video")) := by
    rcases hloc with h | h
    · rcases hr : env.submitResp.response_url with _ | ru <;>
        simp only [textRaw, h, hr]
    · rcases hs : env.submitResp.status_url with _ | su <;>
        simp only [textRaw, hs, h]
  have hiraw : imageRaw tool env image_url save_at prompt config =
      (Except.error Err.missingLocators,
       Trace.empty.addPost (tool.queue_endpoint ++ "/" ++
         configModelName config "fal-ai/flux-lora-canny")) := by
    rcases hloc with h | h
    · rcases hr : env.submitResp.response_url with _ | ru <;>
        simp only [imageRaw, if_neg hv, if_neg hp, h, hr]
    · rcases hs : env.submitResp.status_url with _ | su <;>
        simp only [imageRaw, if_neg hv, if_neg hp, hs, h]
  rw [text_async_of_raw_error tool env save_at config fuel Err.missingLocators _ htraw,
    image_async_of_raw_error tool env image_url save_at prompt config
      Err.missingLocators _ hiraw]
  exact ⟨rfl, by simp [Trace.addPost, Trace.empty], rfl,
    by simp [Trace.addPost, Trace.empty]⟩

/-- C4 witness: a submission response with no status locator. -/
theorem C4_missing_locator_fails_before_polling_witness :
    (text_to_video_async toolX envNoStatusUrl "out.png" none 3).1 =
      some (Except.error (Err.wrapped "Error generating video" Err.missingLocators)) ∧
    (text_to_video_async toolX envNoStatusUrl "out.png" none 3).2.statusPolls = 0 ∧
    (image_to_image_async toolX envNoStatusUrl "https://x/in.png" "out.png" "p" none).1 =
      Except.error (Err.wrapped "Error generating image" Err.missingLocators) ∧
    (image_to_image_async toolX envNoStatusUrl
      "https://x/in.png" "out.png" "p" none).2.statusPolls = 0 :=
  C4_missing_locator_fails_before_polling toolX envNoStatusUrl "https://x/in.png"
    "out.png" "p" none 3 (Or.inl rfl) (by decide) (by decide) (by decide)

/-- C5: an image job observing COMPLETED within the cap whose result
response has no `images` key or an empty `images` list fails with the
wrapped empty-result error and writes no file. -/
theorem C5_empty_asset_list_fails (tool : FalVideoGenerationTool) (env : Env)
    (image_url save_at prompt : String) (config : Option String) (n : Nat) (su ru : String)
    (hiu : image_url ≠ "") (hsa : save_at ≠ "") (hp : prompt ≠ "")
    (hsu : env.submitResp.status_url = some su)
    (hru : env.submitResp.response_url = some ru)
    (hpend : ∀ j, j < n → Pending env j)
    (hc : env.statusAt n = some "COMPLETED") (hn : n < 30)
    (himg : env.images = none ∨ env.images = some []) :
    (image_to_image_async tool env image_url save_at prompt config).1 =
      Except.error (Err.wrapped "Error generating image"
        (Err.emptyResult "No images returned in FAL response.")) ∧
    (image_to_image_async tool env image_url save_at prompt config).2.writes = [] := by
  obtain ⟨m, hm⟩ : ∃ m, max_retries = m + 1 + n :=
    ⟨29 - n, by simp only [max_retries]; omega⟩
  have hraw : imageRaw tool env image_url save_at prompt config =
      (Except.error (Err.emptyResult "No images returned in FAL response."),
       ((((Trace.empty.addPost (tool.queue_endpoint ++ "/" ++
         configModelName config "fal-ai/flux-lora-canny")).addPolls
           n).bumpPoll).bumpResult)) := by
    rw [imageRaw_eq_loop tool env image_url save_at prompt config su ru hiu hsa hp
      hsu hru, hm, imagePollLoop_run_completed env save_at n m _ hpend hc,
      imageCompleted_falsy env save_at _ himg]
  rw [image_async_of_raw_error tool env image_url save_at prompt config _ _ hraw]
  exact ⟨rfl, by simp [Trace.addPost, Trace.empty, Trace.addPolls, Trace.bumpPoll,
    Trace.bumpResult]⟩

/-- C5 witness: COMPLETED at once, result response without an `images`
key. -/
theorem C5_empty_asset_list_fails_witness :
    (image_to_image_async toolX envNoImages "https://x/in.png" "out.png" "p" none).1 =
      Except.error (Err.wrapped "Error generating image"
        (Err.emptyResult "No images returned in FAL response.")) ∧
    (image_to_image_async toolX envNoImages
      "https://x/in.png" "out.png" "p" none).2.writes = [] :=
  C5_empty_asset_list_fails toolX envNoImages "https://x/in.png" "out.png" "p" none 0
    "https://q/s" "https://q/r" (by decide) (by decide) (by decide) rfl rfl
    (fun j hj => absurd hj (by omega)) rfl (by omega) (Or.inl rfl)

/-- C6: a status response outside the recognized set, observed after a
pending prefix, makes both jobs fail with the wrapped unknown-status
protocol error on that very poll instead of continuing to poll. -/
theorem C6_unknown_status_fails (tool : FalVideoGenerationTool) (env : Env)
    (image_url save_at prompt : String) (config : Option String) (n : Nat)
    (s su ru : String)
    (hiu : image_url ≠ "") (hsa : save_at ≠ "") (hp : prompt ≠ "")
    (hsu : env.submitResp.status_url = some su)
    (hru : env.submitResp.response_url = some ru)
    (hpend : ∀ j, j < n → Pending env j)
    (hs : env.statusAt n = some s)
    (h1 : s ∉ (["IN_QUEUE", "IN_PROGRESS"] : List String)) (h2 : s ≠ "COMPLETED") :
    (∀ fuel, n < fuel →
      (text_to_video_async tool env save_at config fuel).1 =
        some (Except.error (Err.wrapped "Error generating video" (Err.unknownStatus s))) ∧
      (text_to_video_async tool env save_at config fuel).2.statusPolls = n + 1) ∧
    (n < 30 →
      (image_to_image_async tool env image_url save_at prompt config).1 =
        Except.error (Err.wrapped "Error generating image" (Err.unknownStatus s)) ∧
      (image_to_image_async tool env image_url save_at prompt config).2.statusPolls
        = n + 1) := by
  constructor
  · intro fuel hf
    obtain ⟨m, rfl⟩ : ∃ m, fuel = m + 1 + n := ⟨fuel - n - 1, by omega⟩
    have hraw : textRaw tool env save_at config (m + 1 + n) =
        (some (Except.error (Err.unknownStatus s)),
         ((Trace.empty.addPost (tool.queue_endpoint ++ "/" ++
           configModelName config "fal-ai/fast-animatediff/text-to-video")).addPolls
             n).bumpPoll) := by
      rw [textRaw_eq_loop tool env save_at config (m + 1 + n) su ru hsu hru]
      exact textPollLoop_run_unknown env save_at n m _ s hpend hs h1 h2
    rw [text_async_of_raw_error tool env save_at config (m + 1 + n) _ _ hraw]
    exact ⟨rfl, by simp [Trace.addPost, Trace.empty, Trace.addPolls, Trace.bumpPoll]⟩
  · intro hn
    obtain ⟨m, hm⟩ : ∃ m, max_retries = m + 1 + n :=
      ⟨29 - n, by simp only [max_retries]; omega⟩
    have hraw : imageRaw tool env image_url save_at prompt config =
        (Except.error (Err.unknownStatus s),
         ((Trace.empty.addPost (tool.queue_endpoint ++ "/" ++
           configModelName config "fal-ai/flux-lora-canny")).addPolls n).bumpPoll) := by
      rw [imageRaw_eq_loop tool env image_url save_at prompt config su ru hiu hsa hp
        hsu hru, hm]
      exact imagePollLoop_run_unknown env save_at n m _ s hpend hs h1 h2
    rw [image_async_of_raw_error tool env image_url save_at prompt config _ _ hraw]
    exact ⟨rfl, by simp [Trace.addPost, Trace.empty, Trace.addPolls, Trace.bumpPoll]⟩

/-- C6 witness: the status string `FAILED` on the first poll. -/
theorem C6_unknown_status_fails_witness :
    ((text_to_video_async toolX envFailedStatus "out.png" none 1).1 =
      some (Except.error (Err.wrapped "Error generating video"
        (Err.unknownStatus "FAILED"))) ∧
     (text_to_video_async toolX envFailedStatus "out.png" none 1).2.statusPolls = 1) ∧
    ((image_to_image_async toolX envFailedStatus "https://x/in.png" "out.png" "p" none).1 =
      Except.error (Err.wrapped "Error generating image" (Err.unknownStatus "FAILED")) ∧
     (image_to_image_async toolX envFailedStatus
       "https://x/in.png" "out.png" "p" none).2.statusPolls = 1) := by
  have h := C6_unknown_status_fails toolX envFailedStatus "https://x/in.png" "out.png"
    "p" none 0 "FAILED" "https://q/s" "https://q/r" (by decide) (by decide) (by decide)
    rfl rfl (fun j hj => absurd hj (by omega)) rfl (by decide) (by decide)
  exact ⟨h.1 1 (by omega), h.2 (by omega)⟩

/-- C8: an empty `image_url`, `save_at`, or `prompt` fails validation
before any network call: the caller sees the once-wrapped validation
error and the trace is empty — no POST, no poll, no fetch, no write. -/
theorem C8_validation_before_network (tool : FalVideoGenerationTool) (env : Env)
    (image_url save_at prompt : String) (config : Option String)
    (h : image_url = "" ∨ save_at = "" ∨ prompt = "") :
    isWrappedValidation
      (image_to_image_async tool env image_url save_at prompt config).1 = true ∧
    (image_to_image_async tool env image_url save_at prompt config).2 = Trace.empty := by
  by_cases h1 : image_url = "" ∨ save_at = ""
  · have hraw : imageRaw tool env image_url save_at prompt config =
        (Except.error (Err.validation "image_url and save_at are required parameters"),
         Trace.empty) := by
      unfold imageRaw
      rw [if_pos h1]
    rw [image_async_of_raw_error tool env image_url save_at prompt config _ _ hraw]
    exact ⟨rfl, rfl⟩
  · have hpr : prompt = "" := by tauto
    have hraw : imageRaw tool env image_url save_at prompt config =
        (Except.error (Err.validation "prompt is a required parameter"), Trace.empty) := by
      unfold imageRaw
      rw [if_neg h1, if_pos hpr]
    rw [image_async_of_raw_error tool env image_url save_at prompt config _ _ hraw]
    exact ⟨rfl, rfl⟩

/-- C8 witness: an empty `image_url`. -/
theorem C8_validation_before_network_witness :
    isWrappedValidation
      (image_to_image_async toolX envAllPending "" "out.png" "p" none).1 = true ∧
    (image_to_image_async toolX envAllPending "" "out.png" "p" none).2 = Trace.empty :=
  C8_validation_before_network toolX envAllPending "" "out.png" "p" none (Or.inl rfl)

end FalVideo
